import Mathlib

/-!
Verification of the Cap recording pipeline core, shallowly embedded from
`crates/media/src/encoders/mp4.rs` and `apps/cli/src/record.rs`.

The encoding sink (`MP4File`) owns an ffmpeg container writer (`Output`),
one mandatory video encoder and an optional audio encoder.  The codec
encoders themselves are external leaf components: we keep them as type
parameters `V`/`A` together with an arbitrary implementation record
(`EncoderImpl`) whose operations may update the encoder state and emit
encoded packets into the container writer.  Everything the sink itself does
(extension normalization, directory creation, open/header/trailer ordering,
the `is_finished` guard) is translated line by line from the Rust source.
-/

/-- Opaque ffmpeg-level error (`ffmpeg::Error`), distinguished by a code. -/
inductive FfmpegError where
  | err (code : Nat)
deriving DecidableEq, Repr

/-- Opaque media-level error (`cap_media::MediaError`), distinguished by a tag. -/
inductive MediaError where
  | err (tag : Nat)
deriving DecidableEq, Repr

/-- Rust `enum InitError` from mp4.rs: which stage of `MP4File::init` failed. -/
inductive InitError where
  | Ffmpeg (e : FfmpegError)
  | VideoInit (e : MediaError)
  | AudioInit (e : MediaError)
deriving DecidableEq, Repr

/-- Which of the two streams an event belongs to. -/
inductive StreamKind where
  | video
  | audio
deriving DecidableEq, Repr

/-- Observable events recorded by the container writer, in write order:
stream registrations (done by the encoder factories), the header, encoded
packets (written by the encoders), and the trailer. -/
inductive OutputEvent where
  | streamAdded (kind : StreamKind)
  | header
  | packet (kind : StreamKind) (payload : Nat)
  | trailer
deriving DecidableEq, Repr

/-- The container writer (`ffmpeg::format::context::Output`): the ordered
list of events written so far, plus the answer of the environment for the one
fallible close-time operation `write_trailer` (`none` = success). -/
structure Output where
  events : List OutputEvent
  trailerResult : Option FfmpegError
deriving DecidableEq, Repr

/-- Models `Output::write_header`: appends the header framing (fallibility of the
underlying call is resolved by the environment in `InitEnv`). -/
def Output.mk_write_header (o : Output) : Output :=
  { o with events := o.events ++ [OutputEvent.header] }

/-- Models `Output::write_trailer`: fails when the environment says so, otherwise
appends the trailer framing. -/
def Output.mk_write_trailer (o : Output) : Except FfmpegError Output :=
  match o.trailerResult with
  | some e => Except.error e
  | none => Except.ok { o with events := o.events ++ [OutputEvent.trailer] }

/-- Encoders interact with the writer only by writing encoded packets;
appending them, tagged with the owning stream. -/
def Output.writePackets (o : Output) (k : StreamKind) (ps : List Nat) : Output :=
  { o with events := o.events ++ ps.map (OutputEvent.packet k) }

/-- A video frame (`FFVideo`): pixel data abstracted to a presentation
timestamp. -/
structure FFVideo where
  pts : Nat
deriving DecidableEq, Repr

/-- An audio frame (`FFAudio`). -/
structure FFAudio where
  pts : Nat
deriving DecidableEq, Repr

/-- Interface of an external codec encoder (the leaf `H264Encoder` /
`Box<dyn AudioEncoder>` components): `queue_frame` consumes one frame,
`finish` flushes; each may update the encoder state and emit packets that
the sink appends to the container writer. Kept fully abstract so theorems
hold for every encoder behaviour. -/
structure EncoderImpl (Enc Frame : Type) where
  queue_frame : Enc → Frame → Enc × List Nat
  finish : Enc → Enc × List Nat

/-- Rust `struct MP4File` from mp4.rs. -/
structure MP4File (V A : Type) where
  tag : String
  output : Output
  video : V
  audio : Option A
  is_finished : Bool

/-- Embeds `MP4File::queue_video_frame`: early-returns when finished, otherwise
hands the frame to the video encoder, which writes its packets to the
container writer. -/
def MP4File.queue_video_frame (vi : EncoderImpl V FFVideo) (s : MP4File V A)
    (frame : FFVideo) : MP4File V A :=
  if s.is_finished then s
  else
    let r := vi.queue_frame s.video frame
    { s with video := r.1, output := s.output.writePackets StreamKind.video r.2 }

/-- Embeds `MP4File::queue_audio_frame`: early-returns when finished or when no
audio encoder is registered. -/
def MP4File.queue_audio_frame (ai : EncoderImpl A FFAudio) (s : MP4File V A)
    (frame : FFAudio) : MP4File V A :=
  if s.is_finished then s
  else
    match s.audio with
    | none => s
    | some a =>
      let r := ai.queue_frame a frame
      { s with audio := some r.1, output := s.output.writePackets StreamKind.audio r.2 }

/-- Log entries emitted by `MP4File::finish` (tracing calls). -/
inductive LogEntry where
  | finishing
  | flushingAudio
  | writingTrailer
  | trailerError (e : FfmpegError)
deriving DecidableEq, Repr

/-- Embeds `MP4File::finish`: early-returns when already finished; otherwise sets
`is_finished`, flushes the video encoder, then the audio encoder if
present, then writes the trailer. A trailer failure is only logged — the
Rust function returns `()`, so no error ever reaches the caller; the
second component is the log. -/
def MP4File.finish (vi : EncoderImpl V FFVideo) (ai : EncoderImpl A FFAudio)
    (s : MP4File V A) : MP4File V A × List LogEntry :=
  if s.is_finished then (s, [])
  else
    let s1 : MP4File V A := { s with is_finished := true }
    let rv := vi.finish s1.video
    let s2 : MP4File V A :=
      { s1 with video := rv.1, output := s1.output.writePackets StreamKind.video rv.2 }
    let flushA : MP4File V A × List LogEntry :=
      match s2.audio with
      | some a =>
        let ra := ai.finish a
        ({ s2 with audio := some ra.1,
                   output := s2.output.writePackets StreamKind.audio ra.2 },
         [LogEntry.flushingAudio])
      | none => (s2, [])
    let s3 := flushA.1
    match s3.output.mk_write_trailer with
    | Except.ok o =>
      ({ s3 with output := o },
       LogEntry.finishing :: flushA.2 ++ [LogEntry.writingTrailer])
    | Except.error e =>
      (s3, LogEntry.finishing :: flushA.2 ++ [LogEntry.writingTrailer, LogEntry.trailerError e])

/-- Is this event the trailer framing? -/
def isTrailer : OutputEvent → Bool
  | OutputEvent.trailer => true
  | _ => false

/-- Number of trailer framings present in the event list of the writer. -/
def trailerCount (o : Output) : Nat :=
  (o.events.filter isTrailer).length

/-- A filesystem path (`std::path::PathBuf`): the parent directory
components, the file stem, and the optional extension (the part of the
file name after its last dot). -/
structure FsPath where
  dirs : List String
  stem : String
  ext : Option String
deriving DecidableEq, Repr

/-- Models `PathBuf::set_extension` with a non-empty extension: drops the old
extension, if any, and attaches the new one. -/
def FsPath.set_extension (p : FsPath) (e : String) : FsPath :=
  { p with ext := some e }

/-- The directories existing on disk, each as its component list. -/
abbrev FileSys := List (List String)

/-- Models `std::fs::create_dir_all`: creates the directory and all its missing
ancestors (in the model, adds every prefix of the component list). -/
def createDirAll (fs : FileSys) (d : List String) : FileSys :=
  fs ++ (List.range (d.length + 1)).map (fun n => d.take n)

/-- Side effects `MP4File::init` performs, in order: forcing the
extension, creating the parent directory, opening the container writer at
the normalized path, invoking the encoder factories, committing the
header. -/
inductive InitStep where
  | setExt (e : String)
  | createDirs (d : List String)
  | openOutput (p : FsPath)
  | videoFactory
  | audioFactory
  | writeHeader
deriving DecidableEq, Repr

/-- Environment answers for the fallible container-writer calls made
during `init` (`format::output`, `write_header`) and later during
`finish` (`write_trailer`); `none` means success. -/
structure InitEnv where
  openResult : Option FfmpegError
  headerResult : Option FfmpegError
  trailerResult : Option FfmpegError
deriving DecidableEq, Repr

/-- Result of `MP4File::init`: the `Result<MP4File, InitError>` value, the
filesystem after the `create_dir_all` call, and the trace of performed
steps. -/
structure InitResult (V A : Type) where
  res : Except InitError (MP4File V A)
  fs : FileSys
  steps : List InitStep

/-- Embeds `MP4File::init`, line by line: force the `.mp4` extension; create the
parent directory (result ignored in the source: `let _ = ...`); open the
container writer (fallible); run the mandatory video factory; run the
audio factory, absent meaning no audio requested (`.transpose()?`); only
then commit the header. Factories are modelled by their outcome: the
streams they register with the writer plus the encoder, or an error. -/
def MP4File.init (tag : String) (p : FsPath) (env : InitEnv) (fs0 : FileSys)
    (video : Except MediaError (List StreamKind × V))
    (audio : Option (Except MediaError (List StreamKind × A))) :
    InitResult V A :=
  let output := p.set_extension "mp4"
  let fs := createDirAll fs0 output.dirs
  let steps0 := [InitStep.setExt "mp4", InitStep.createDirs output.dirs,
    InitStep.openOutput output]
  match env.openResult with
  | some e => ⟨Except.error (InitError.Ffmpeg e), fs, steps0⟩
  | none =>
    let out0 : Output := { events := [], trailerResult := env.trailerResult }
    match video with
    | Except.error e =>
      ⟨Except.error (InitError.VideoInit e), fs, steps0 ++ [InitStep.videoFactory]⟩
    | Except.ok va =>
      let out1 : Output :=
        { out0 with events := out0.events ++ va.1.map OutputEvent.streamAdded }
      let steps1 := steps0 ++ [InitStep.videoFactory, InitStep.audioFactory]
      let audioStep : Except InitError (Output × Option A) :=
        match audio with
        | none => Except.ok (out1, none)
        | some (Except.error e) => Except.error (InitError.AudioInit e)
        | some (Except.ok aa) =>
          Except.ok
            ({ out1 with events := out1.events ++ aa.1.map OutputEvent.streamAdded },
             some aa.2)
      match audioStep with
      | Except.error e => ⟨Except.error e, fs, steps1⟩
      | Except.ok oa =>
        match env.headerResult with
        | some e =>
          ⟨Except.error (InitError.Ffmpeg e), fs, steps1 ++ [InitStep.writeHeader]⟩
        | none =>
          ⟨Except.ok
            { tag := tag, output := oa.1.mk_write_header, video := va.2,
              audio := oa.2, is_finished := false },
           fs, steps1 ++ [InitStep.writeHeader]⟩

/-- A screen descriptor from `cap_media::sources::list_screens` (`CaptureScreen`). -/
structure ScreenInfo where
  id : Nat
deriving DecidableEq, Repr

/-- A window descriptor from `cap_media::sources::list_windows` (`CaptureWindow`). -/
structure WindowInfo where
  id : Nat
deriving DecidableEq, Repr

/-- A camera descriptor from `nokhwa::query` (index and human-readable name). -/
structure CameraInfo where
  index : Nat
  human_name : String
deriving DecidableEq, Repr

/-- Rust `cap_media::sources::ScreenCaptureTarget`. -/
inductive ScreenCaptureTarget where
  | screen (id : Nat)
  | window (id : Nat)
deriving DecidableEq, Repr

/-- The parsed `cap record start` arguments (`struct RecordStart`, with the
flattened `RecordTargets`). Ids and indices are `u32` in the source,
compared only for equality, so `Nat` is faithful. -/
structure RecordStart where
  screen : Option Nat
  window : Option Nat
  camera : Option Nat
  mic : Option Nat
  system_audio : Bool
  path : Option FsPath
  fps : Option Nat

/-- The environment `RecordStart::run` consults: the enumerated screens,
windows and cameras, the current directory, the freshly generated session
id (`Uuid::new_v4`), and whether `spawn_studio_recording_actor` fails
(`some errorMessage`) or succeeds (`none`). -/
structure CliEnv where
  screens : List ScreenInfo
  windows : List WindowInfo
  cameras : List CameraInfo
  currentDir : List String
  freshId : String
  spawnResult : Option String

/-- Observable side effects of `RecordStart::run`, in order. `spawnActor`
is the step that allocates the recording session and creates the output
file at the given path. -/
inductive CliEffect where
  | listScreens
  | listWindows
  | queryCameras
  | initCamera (name : String)
  | spawnActor (id : String) (p : FsPath) (target : ScreenCaptureTarget)
      (withCamera : Bool) (systemAudio : Bool)
  | readLine
  | stopActor
deriving DecidableEq, Repr

/-- The screen-not-found error string of record.rs, naming the id. -/
def screenNotFoundMsg (id : Nat) : String :=
  "Screen with id \x27" ++ toString id ++ "\x27 not found"

/-- The window-not-found error string of record.rs, naming the id. -/
def windowNotFoundMsg (id : Nat) : String :=
  "Window with id \x27" ++ toString id ++ "\x27 not found"

/-- The error for neither `--screen` nor `--window` being given. -/
def noTargetMsg : String := "No target specified"

/-- The output path: the caller-supplied one, or
`current_dir().join(format!("{id}.cap"))`. -/
def defaultedPath (self : RecordStart) (env : CliEnv) : FsPath :=
  match self.path with
  | some p => p
  | none => { dirs := env.currentDir, stem := env.freshId, ext := some "cap" }

/-- The part of `RecordStart::run` after successful target resolution:
optional camera lookup by index (lenient: an unmatched index yields no
camera feed rather than an error), session-id and path computation, actor
spawn, then the interactive wait and stop. -/
def RecordStart.runResolved (self : RecordStart) (env : CliEnv)
    (target : ScreenCaptureTarget) (eff0 : List CliEffect) :
    Except String Unit × List CliEffect :=
  let cam : Option String × List CliEffect :=
    match self.camera with
    | some ci =>
      match env.cameras.find? (fun c => c.index == ci) with
      | some info =>
        (some info.human_name, [CliEffect.queryCameras, CliEffect.initCamera info.human_name])
      | none => (none, [CliEffect.queryCameras])
    | none => (none, [])
  let path := defaultedPath self env
  let eff1 := eff0 ++ cam.2 ++
    [CliEffect.spawnActor env.freshId path target cam.1.isSome self.system_audio]
  match env.spawnResult with
  | some e => (Except.error e, eff1)
  | none => (Except.ok (), eff1 ++ [CliEffect.readLine, CliEffect.stopActor])

/-- Embeds `RecordStart::run`: resolve the capture target first — `(Some(id), _)`
looks among screens, `(None, Some(id))` among windows, otherwise no
target — failing the whole run with a not-found error naming the id
before anything else happens. -/
def RecordStart.run (self : RecordStart) (env : CliEnv) :
    Except String Unit × List CliEffect :=
  match self.screen, self.window with
  | some id, _ =>
    match env.screens.find? (fun s => s.id == id) with
    | none => (Except.error (screenNotFoundMsg id), [CliEffect.listScreens])
    | some s =>
      self.runResolved env (ScreenCaptureTarget.screen s.id) [CliEffect.listScreens]
  | none, some id =>
    match env.windows.find? (fun w => w.id == id) with
    | none => (Except.error (windowNotFoundMsg id), [CliEffect.listWindows])
    | some w =>
      self.runResolved env (ScreenCaptureTarget.window w.id) [CliEffect.listWindows]
  | none, none => (Except.error noTargetMsg, [])

/-- Actions a pipeline sink task performs: the one-shot readiness
handshake (carrying `Result<(), MediaError>`) and frame consumption. -/
inductive TaskAction (Frame : Type) where
  | sendReady (r : Except MediaError Unit)
  | consumed (f : Frame)
deriving Repr

/-- Is this action a Ready Signal send? -/
def isReadyAction {Frame : Type} : TaskAction Frame → Bool
  | TaskAction.sendReady _ => true
  | _ => false

/-- How many Ready Signal values a task trace sends. -/
def readyCount {Frame : Type} (tr : List (TaskAction Frame)) : Nat :=
  (tr.filter isReadyAction).length

/-- Rust `struct MP4Input`: one video frame with an optional paired audio frame. -/
structure MP4Input where
  video : FFVideo
  audio : Option FFAudio
deriving DecidableEq, Repr

/-- Embeds `impl PipelineSinkTask<MP4Input> for MP4File::run`: sends `Ok(())`,
then consumes the channel (modelled by the list of frames received before
it closes), queueing each video frame and any paired audio frame. -/
def runSinkMP4Input (vi : EncoderImpl V FFVideo) (ai : EncoderImpl A FFAudio)
    (s : MP4File V A) (frames : List MP4Input) :
    MP4File V A × List (TaskAction MP4Input) :=
  let step := fun (st : MP4File V A) (f : MP4Input) =>
    let st1 := st.queue_video_frame vi f.video
    match f.audio with
    | some a => st1.queue_audio_frame ai a
    | none => st1
  (frames.foldl step s,
   TaskAction.sendReady (Except.ok ()) :: frames.map TaskAction.consumed)

/-- Embeds `impl PipelineSinkTask<FFVideo> for MP4File::run`: first
`assert!(self.audio.is_none())` — `none` models the panic, which aborts
before the Ready Signal is sent or any frame is consumed; otherwise sends
`Ok(())` and consumes the channel. -/
def runSinkVideoOwned (vi : EncoderImpl V FFVideo) (s : MP4File V A)
    (frames : List FFVideo) :
    Option (MP4File V A × List (TaskAction FFVideo)) :=
  match s.audio with
  | some _ => none
  | none =>
    some (frames.foldl (fun st f => st.queue_video_frame vi f) s,
          TaskAction.sendReady (Except.ok ()) :: frames.map TaskAction.consumed)

/-- Embeds `impl PipelineSinkTask<FFAudio> for Arc<Mutex<MP4File>>::run`: sends
`Ok(())`, then locks the sink around each `queue_audio_frame` call (the
functional result of the per-frame critical sections, in receive order;
the interleaving itself is the `MuxStep` system below). -/
def runSinkAudioShared (ai : EncoderImpl A FFAudio) (s : MP4File V A)
    (frames : List FFAudio) :
    MP4File V A × List (TaskAction FFAudio) :=
  (frames.foldl (fun st f => st.queue_audio_frame ai f) s,
   TaskAction.sendReady (Except.ok ()) :: frames.map TaskAction.consumed)

/-- Embeds `impl PipelineSinkTask<FFVideo> for Arc<Mutex<MP4File>>::run`:
likewise for video frames. -/
def runSinkVideoShared (vi : EncoderImpl V FFVideo) (s : MP4File V A)
    (frames : List FFVideo) :
    MP4File V A × List (TaskAction FFVideo) :=
  (frames.foldl (fun st f => st.queue_video_frame vi f) s,
   TaskAction.sendReady (Except.ok ()) :: frames.map TaskAction.consumed)

/-- The two pipeline tasks sharing one `Arc<Mutex<MP4File>>`. -/
inductive MuxTask where
  | video
  | audio
deriving DecidableEq, Repr

/-- Interleaving state of the two shared-sink tasks: who currently holds
the sink mutex, whether each task is inside a mutating sink call
(`lockedV`/`lockedA`), the shared sink, and the remaining frames of each
channel. -/
structure MuxState (V A : Type) where
  holder : Option MuxTask
  lockedV : Bool
  lockedA : Bool
  sink : MP4File V A
  pendingV : List FFVideo
  pendingA : List FFAudio

/-- One scheduler step of the two tasks of
`impl PipelineSinkTask<FFVideo> / <FFAudio> for Arc<Mutex<MP4File>>`.
Each mutating sink call is bracketed by `lock` (blocks until the mutex is
free) and the mutation-plus-unlock; `finish` likewise locks before
calling `finish` on the sink, after its channel has drained. -/
inductive MuxStep (vi : EncoderImpl V FFVideo) (ai : EncoderImpl A FFAudio) :
    MuxState V A → MuxState V A → Prop where
  | lockV (s : MuxState V A) :
      s.holder = none → s.lockedV = false →
      MuxStep vi ai s { s with holder := some MuxTask.video, lockedV := true }
  | queueUnlockV (s : MuxState V A) (f : FFVideo) (rest : List FFVideo) :
      s.pendingV = f :: rest → s.holder = some MuxTask.video → s.lockedV = true →
      MuxStep vi ai s
        { s with holder := none, lockedV := false,
                 sink := s.sink.queue_video_frame vi f, pendingV := rest }
  | finishUnlockV (s : MuxState V A) :
      s.pendingV = [] → s.holder = some MuxTask.video → s.lockedV = true →
      MuxStep vi ai s
        { s with holder := none, lockedV := false, sink := (s.sink.finish vi ai).1 }
  | lockA (s : MuxState V A) :
      s.holder = none → s.lockedA = false →
      MuxStep vi ai s { s with holder := some MuxTask.audio, lockedA := true }
  | queueUnlockA (s : MuxState V A) (f : FFAudio) (rest : List FFAudio) :
      s.pendingA = f :: rest → s.holder = some MuxTask.audio → s.lockedA = true →
      MuxStep vi ai s
        { s with holder := none, lockedA := false,
                 sink := s.sink.queue_audio_frame ai f, pendingA := rest }
  | finishUnlockA (s : MuxState V A) :
      s.pendingA = [] → s.holder = some MuxTask.audio → s.lockedA = true →
      MuxStep vi ai s
        { s with holder := none, lockedA := false, sink := (s.sink.finish vi ai).1 }

/-- Initial interleaving state: mutex free, neither task inside a call. -/
def MuxInit (s : MuxState V A) : Prop :=
  s.holder = none ∧ s.lockedV = false ∧ s.lockedA = false

/-- Lock-ownership invariant: a task is inside a mutating sink call
exactly when it holds the mutex. -/
def MuxInv (s : MuxState V A) : Prop :=
  (s.lockedV = true ↔ s.holder = some MuxTask.video) ∧
  (s.lockedA = true ↔ s.holder = some MuxTask.audio)

/-- Finitely many scheduler steps. -/
inductive MuxReachable (vi : EncoderImpl V FFVideo) (ai : EncoderImpl A FFAudio) :
    MuxState V A → MuxState V A → Prop where
  | refl (s : MuxState V A) : MuxReachable vi ai s s
  | tail (s t u : MuxState V A) :
      MuxReachable vi ai s t → MuxStep vi ai t u → MuxReachable vi ai s u

/-- Encoded packets are never trailer framings. -/
theorem filter_isTrailer_map_packet (k : StreamKind) (ps : List Nat) :
    (ps.map (OutputEvent.packet k)).filter isTrailer = [] := by
  induction ps with
  | nil => rfl
  | cons p t ih => simp [isTrailer, ih]

/-- Writing packets leaves the number of trailer framings unchanged. -/
theorem trailerCount_writePackets (o : Output) (k : StreamKind) (ps : List Nat) :
    trailerCount (o.writePackets k ps) = trailerCount o := by
  simp [trailerCount, Output.writePackets, List.filter_append, filter_isTrailer_map_packet]

/-- Writing packets does not touch the trailer environment. -/
theorem trailerResult_writePackets (o : Output) (k : StreamKind) (ps : List Nat) :
    (o.writePackets k ps).trailerResult = o.trailerResult := rfl

/-- Calling `finish` on an already-finished sink is the identity and logs nothing. -/
theorem finish_of_finished (vi : EncoderImpl V FFVideo) (ai : EncoderImpl A FFAudio)
    (s : MP4File V A) (h : s.is_finished = true) : s.finish vi ai = (s, []) := by
  simp [MP4File.finish, h]

/-- After any `finish` call the sink is in the Finished state. -/
theorem finish_sets_flag (vi : EncoderImpl V FFVideo) (ai : EncoderImpl A FFAudio)
    (s : MP4File V A) : ((s.finish vi ai).1).is_finished = true := by
  by_cases h : s.is_finished
  · simp [MP4File.finish, h]
  · simp only [Bool.not_eq_true] at h
    cases ha : s.audio <;> cases ht : s.output.trailerResult <;>
      simp [MP4File.finish, h, ha, ht, Output.mk_write_trailer, Output.writePackets]

/-- A first `finish` with a succeeding trailer write adds exactly one
trailer framing. -/
theorem trailerCount_finish_open (vi : EncoderImpl V FFVideo)
    (ai : EncoderImpl A FFAudio) (s : MP4File V A)
    (h : s.is_finished = false) (ht : s.output.trailerResult = none) :
    trailerCount ((s.finish vi ai).1).output = trailerCount s.output + 1 := by
  cases ha : s.audio <;>
    simp [MP4File.finish, h, ha, Output.mk_write_trailer, Output.writePackets, ht,
      trailerCount, List.filter_append, filter_isTrailer_map_packet, isTrailer]

/-- A sample video encoder over `Nat` state, used to instantiate theorems
at concrete inputs. -/
def sampleVideoImpl : EncoderImpl Nat FFVideo :=
  { queue_frame := fun e f => (e + 1, [f.pts]), finish := fun e => (e, [e]) }

/-- A sample audio encoder over `Nat` state. -/
def sampleAudioImpl : EncoderImpl Nat FFAudio :=
  { queue_frame := fun e f => (e + 1, [f.pts]), finish := fun e => (e, [e]) }

/-- A sample open sink (header written, audio registered, trailer write
will succeed). -/
def sampleOpenSink : MP4File Nat Nat :=
  { tag := "t", output := { events := [OutputEvent.header], trailerResult := none },
    video := 0, audio := some 0, is_finished := false }

/-- A sample finished sink. -/
def sampleFinishedSink : MP4File Nat Nat :=
  { tag := "t", output := { events := [OutputEvent.header], trailerResult := none },
    video := 0, audio := some 0, is_finished := true }

/-- A sample open sink whose trailer write will fail. -/
def sampleFailTrailerSink : MP4File Nat Nat :=
  { tag := "t",
    output := { events := [OutputEvent.header], trailerResult := some (FfmpegError.err 9) },
    video := 0, audio := some 0, is_finished := false }

/-- C3: once the sink is Finished, `queue_video_frame` and
`queue_audio_frame` are no-ops — the whole sink (container writer and both
encoders included) is returned unchanged, so frames submitted after
`finish` never reach the output. -/
theorem mp4_queue_noop_after_finished (vi : EncoderImpl V FFVideo)
    (ai : EncoderImpl A FFAudio) (s : MP4File V A) (fv : FFVideo) (fa : FFAudio)
    (h : s.is_finished = true) :
    s.queue_video_frame vi fv = s ∧ s.queue_audio_frame ai fa = s := by
  refine ⟨?_, ?_⟩ <;> simp [MP4File.queue_video_frame, MP4File.queue_audio_frame, h]

/-- Witness for C3 at a concrete finished sink. -/
theorem mp4_queue_noop_after_finished_witness :
    sampleFinishedSink.is_finished = true ∧
    (sampleFinishedSink.queue_video_frame sampleVideoImpl { pts := 5 } = sampleFinishedSink ∧
     sampleFinishedSink.queue_audio_frame sampleAudioImpl { pts := 7 } = sampleFinishedSink) :=
  ⟨rfl, mp4_queue_noop_after_finished sampleVideoImpl sampleAudioImpl sampleFinishedSink
    { pts := 5 } { pts := 7 } rfl⟩

/-- C2: `finish` is idempotent — a second call returns the exact same sink
state — a call on an already-finished sink changes nothing, and starting
from an Open sink with no trailer yet (and a succeeding trailer write) the
trailer framing is written exactly once, during the first call only. -/
theorem mp4_finish_idempotent_trailer_once (vi : EncoderImpl V FFVideo)
    (ai : EncoderImpl A FFAudio) (s : MP4File V A) :
    ((s.finish vi ai).1.finish vi ai).1 = (s.finish vi ai).1 ∧
    (s.is_finished = true → s.finish vi ai = (s, [])) ∧
    (s.is_finished = false → s.output.trailerResult = none → trailerCount s.output = 0 →
      trailerCount ((s.finish vi ai).1).output = 1 ∧
      trailerCount (((s.finish vi ai).1.finish vi ai).1).output = 1) := by
  have hidem : ((s.finish vi ai).1.finish vi ai).1 = (s.finish vi ai).1 := by
    rw [finish_of_finished vi ai _ (finish_sets_flag vi ai s)]
  refine ⟨hidem, fun h => finish_of_finished vi ai s h, fun h ht hc => ?_⟩
  have h1 : trailerCount ((s.finish vi ai).1).output = 1 := by
    rw [trailerCount_finish_open vi ai s h ht, hc]
  exact ⟨h1, by rw [hidem]; exact h1⟩

/-- Witness for C2 at a concrete open sink. -/
theorem mp4_finish_idempotent_trailer_once_witness :
    ((sampleOpenSink.finish sampleVideoImpl sampleAudioImpl).1.finish
        sampleVideoImpl sampleAudioImpl).1 =
      (sampleOpenSink.finish sampleVideoImpl sampleAudioImpl).1 ∧
    sampleOpenSink.is_finished = false ∧
    sampleOpenSink.output.trailerResult = none ∧
    trailerCount sampleOpenSink.output = 0 ∧
    trailerCount ((sampleOpenSink.finish sampleVideoImpl sampleAudioImpl).1).output = 1 ∧
    trailerCount (((sampleOpenSink.finish sampleVideoImpl sampleAudioImpl).1.finish
        sampleVideoImpl sampleAudioImpl).1).output = 1 :=
  ⟨(mp4_finish_idempotent_trailer_once sampleVideoImpl sampleAudioImpl sampleOpenSink).1,
   rfl, rfl, rfl,
   ((mp4_finish_idempotent_trailer_once sampleVideoImpl sampleAudioImpl
      sampleOpenSink).2.2 rfl rfl rfl).1,
   ((mp4_finish_idempotent_trailer_once sampleVideoImpl sampleAudioImpl
      sampleOpenSink).2.2 rfl rfl rfl).2⟩

/-- C6: when the trailer commit fails during the first `finish`, the
failure is only logged (it appears in the log, and `finish` — whose Rust
return type is `()` — hands no error to its caller): the call still
completes with the sink transitioned to Finished, and no trailer framing
is written. -/
theorem mp4_trailer_failure_only_logged (vi : EncoderImpl V FFVideo)
    (ai : EncoderImpl A FFAudio) (s : MP4File V A) (e : FfmpegError)
    (h : s.is_finished = false) (ht : s.output.trailerResult = some e) :
    ((s.finish vi ai).1).is_finished = true ∧
    trailerCount ((s.finish vi ai).1).output = trailerCount s.output ∧
    LogEntry.trailerError e ∈ (s.finish vi ai).2 := by
  cases ha : s.audio <;>
    simp [MP4File.finish, h, ha, Output.mk_write_trailer, Output.writePackets, ht,
      trailerCount, List.filter_append, filter_isTrailer_map_packet]

/-- Witness for C6 at a concrete sink whose trailer write fails. -/
theorem mp4_trailer_failure_only_logged_witness :
    sampleFailTrailerSink.is_finished = false ∧
    sampleFailTrailerSink.output.trailerResult = some (FfmpegError.err 9) ∧
    (((sampleFailTrailerSink.finish sampleVideoImpl sampleAudioImpl).1).is_finished = true ∧
     trailerCount ((sampleFailTrailerSink.finish sampleVideoImpl sampleAudioImpl).1).output =
       trailerCount sampleFailTrailerSink.output ∧
     LogEntry.trailerError (FfmpegError.err 9) ∈
       (sampleFailTrailerSink.finish sampleVideoImpl sampleAudioImpl).2) :=
  ⟨rfl, rfl,
   mp4_trailer_failure_only_logged sampleVideoImpl sampleAudioImpl sampleFailTrailerSink
     (FfmpegError.err 9) rfl rfl⟩

/-- Lemma: `create_dir_all` makes the requested directory exist. -/
theorem mem_createDirAll (fs : FileSys) (d : List String) : d ∈ createDirAll fs d := by
  have hd : d ∈ (List.range (d.length + 1)).map (fun n => d.take n) := by
    refine List.mem_map.mpr ⟨d.length, ?_, ?_⟩
    · exact List.mem_range.mpr (Nat.lt_succ_self _)
    · exact List.take_length d
  exact List.mem_append.mpr (Or.inr hd)

/-- C1: `init` fails with the stage-identifying error — container-level
(`Ffmpeg`) when opening the writer fails, `VideoInit` when the mandatory
video factory fails, `AudioInit` when the requested audio factory fails —
and in every failure case yields an `Except.error`, never an Open sink;
when it does succeed, the returned sink is Open and its container writer
holds exactly the registered streams followed by the header, i.e. the
header was committed strictly after every registration and before any
frame write. -/
theorem mp4_init_stage_errors_and_header_commit {V A : Type}
    (tag : String) (p : FsPath) (env : InitEnv) (fs0 : FileSys)
    (video : Except MediaError (List StreamKind × V))
    (audio : Option (Except MediaError (List StreamKind × A))) :
    (∀ e, env.openResult = some e →
      (MP4File.init tag p env fs0 video audio).res =
        Except.error (InitError.Ffmpeg e)) ∧
    (∀ e, env.openResult = none → video = Except.error e →
      (MP4File.init tag p env fs0 video audio).res =
        Except.error (InitError.VideoInit e)) ∧
    (∀ e va, env.openResult = none → video = Except.ok va →
      audio = some (Except.error e) →
      (MP4File.init tag p env fs0 video audio).res =
        Except.error (InitError.AudioInit e)) ∧
    (∀ s, (MP4File.init tag p env fs0 video audio).res = Except.ok s →
      s.is_finished = false ∧
      ∃ streams : List StreamKind,
        s.output.events = streams.map OutputEvent.streamAdded ++ [OutputEvent.header]) := by
  refine ⟨?_, ?_, ?_, ?_⟩
  · intro e he
    simp [MP4File.init, he]
  · intro e ho hv
    simp [MP4File.init, ho, hv]
  · intro e va ho hv ha
    simp [MP4File.init, ho, hv, ha]
  · intro s hs
    rcases ho : env.openResult with _ | e
    · rcases hv : video with e | va
      · simp [MP4File.init, ho, hv] at hs
      · rcases ha : audio with _ | ea
        · rcases hh : env.headerResult with _ | e
          · simp [MP4File.init, ho, hv, ha, hh] at hs
            subst hs
            exact ⟨rfl, va.1, by simp [Output.mk_write_header]⟩
          · simp [MP4File.init, ho, hv, ha, hh] at hs
        · rcases ea with e | aa
          · simp [MP4File.init, ho, hv, ha] at hs
          · rcases hh : env.headerResult with _ | e
            · simp [MP4File.init, ho, hv, ha, hh] at hs
              subst hs
              exact ⟨rfl, va.1 ++ aa.1, by simp [Output.mk_write_header]⟩
            · simp [MP4File.init, ho, hv, ha, hh] at hs
    · simp [MP4File.init, ho] at hs

/-- A caller-supplied path with a wrong extension. -/
def samplePathIn : FsPath := { dirs := ["tmp", "rec"], stem := "out", ext := some "mov" }

/-- Environment where every container-writer call succeeds. -/
def envAllOk : InitEnv := { openResult := none, headerResult := none, trailerResult := none }

/-- Environment where opening the container writer fails. -/
def envOpenFail : InitEnv :=
  { openResult := some (FfmpegError.err 1), headerResult := none, trailerResult := none }

/-- A succeeding video factory registering one video stream. -/
def videoFactoryOk : Except MediaError (List StreamKind × Nat) :=
  Except.ok ([StreamKind.video], 0)

/-- A failing video factory. -/
def videoFactoryErr : Except MediaError (List StreamKind × Nat) :=
  Except.error (MediaError.err 2)

/-- A requested, succeeding audio factory registering one audio stream. -/
def audioFactoryOk : Option (Except MediaError (List StreamKind × Nat)) :=
  some (Except.ok ([StreamKind.audio], 0))

/-- A requested but failing audio factory. -/
def audioFactoryErr : Option (Except MediaError (List StreamKind × Nat)) :=
  some (Except.error (MediaError.err 3))

/-- The sink `init` produces on the all-success path for the sample
factories. -/
def sampleInitOkSink : MP4File Nat Nat :=
  { tag := "t",
    output := { events := [OutputEvent.streamAdded StreamKind.video,
                           OutputEvent.streamAdded StreamKind.audio, OutputEvent.header],
                trailerResult := none },
    video := 0, audio := some 0, is_finished := false }

/-- Witness for C1: each failure stage at a concrete input, plus the
event shape of the successful sink. -/
theorem mp4_init_stage_errors_and_header_commit_witness :
    (MP4File.init "t" samplePathIn envOpenFail [] videoFactoryOk audioFactoryOk).res =
      Except.error (InitError.Ffmpeg (FfmpegError.err 1)) ∧
    (MP4File.init "t" samplePathIn envAllOk [] videoFactoryErr audioFactoryOk).res =
      Except.error (InitError.VideoInit (MediaError.err 2)) ∧
    (MP4File.init "t" samplePathIn envAllOk [] videoFactoryOk audioFactoryErr).res =
      Except.error (InitError.AudioInit (MediaError.err 3)) ∧
    (sampleInitOkSink.is_finished = false ∧
     ∃ streams : List StreamKind,
       sampleInitOkSink.output.events =
         streams.map OutputEvent.streamAdded ++ [OutputEvent.header]) :=
  ⟨(mp4_init_stage_errors_and_header_commit "t" samplePathIn envOpenFail []
      videoFactoryOk audioFactoryOk).1 (FfmpegError.err 1) rfl,
   (mp4_init_stage_errors_and_header_commit "t" samplePathIn envAllOk []
      videoFactoryErr audioFactoryOk).2.1 (MediaError.err 2) rfl rfl,
   (mp4_init_stage_errors_and_header_commit "t" samplePathIn envAllOk []
      videoFactoryOk audioFactoryErr).2.2.1 (MediaError.err 3)
      ([StreamKind.video], 0) rfl rfl rfl,
   (mp4_init_stage_errors_and_header_commit "t" samplePathIn envAllOk []
      videoFactoryOk audioFactoryOk).2.2.2 sampleInitOkSink rfl⟩

/-- C8: whatever extension the caller supplied, `init` forces it to
`mp4`, and it creates the parent directory strictly before opening the
container writer at the normalized path; afterwards the parent directory
exists in the filesystem. -/
theorem mp4_init_normalizes_extension_and_parent_dir {V A : Type}
    (tag : String) (p : FsPath) (env : InitEnv) (fs0 : FileSys)
    (video : Except MediaError (List StreamKind × V))
    (audio : Option (Except MediaError (List StreamKind × A))) :
    (MP4File.init tag p env fs0 video audio).steps.take 3 =
      [InitStep.setExt "mp4", InitStep.createDirs p.dirs,
       InitStep.openOutput (p.set_extension "mp4")] ∧
    (p.set_extension "mp4").ext = some "mp4" ∧
    p.dirs ∈ (MP4File.init tag p env fs0 video audio).fs := by
  obtain ⟨o, hdr, tr⟩ := env
  refine ⟨?_, rfl, ?_⟩
  · rcases o with _ | e <;> rcases video with e2 | va <;>
      rcases audio with _ | (e3 | aa) <;> rcases hdr with _ | e4 <;> rfl
  · rcases o with _ | e <;> rcases video with e2 | va <;>
      rcases audio with _ | (e3 | aa) <;> rcases hdr with _ | e4 <;>
      exact mem_createDirAll fs0 p.dirs

/-- C5: a requested screen or window id matching no enumerated target
makes `run` fail immediately with the not-found error naming that id; the
effect trace holds nothing but the enumeration itself — no camera query,
no actor spawn, no output file. -/
theorem record_unresolved_target_fails_early (self : RecordStart) (env : CliEnv) :
    (∀ id, self.screen = some id → (∀ s ∈ env.screens, s.id ≠ id) →
      self.run env = (Except.error (screenNotFoundMsg id), [CliEffect.listScreens])) ∧
    (∀ id, self.screen = none → self.window = some id → (∀ w ∈ env.windows, w.id ≠ id) →
      self.run env = (Except.error (windowNotFoundMsg id), [CliEffect.listWindows])) := by
  constructor
  · intro id hs hmiss
    have hf : env.screens.find? (fun s => s.id == id) = none := by
      refine List.find?_eq_none.mpr fun s hsin => ?_
      simpa using hmiss s hsin
    simp [RecordStart.run, hs, hf]
  · intro id hs hw hmiss
    have hf : env.windows.find? (fun w => w.id == id) = none := by
      refine List.find?_eq_none.mpr fun w hwin => ?_
      simpa using hmiss w hwin
    simp [RecordStart.run, hs, hw, hf]

/-- An environment whose only screen has id 1 and only window id 4. -/
def sampleEnvNoMatch : CliEnv :=
  { screens := [{ id := 1 }], windows := [{ id := 4 }], cameras := [],
    currentDir := ["home"], freshId := "sid", spawnResult := none }

/-- Arguments requesting the unknown screen 2. -/
def sampleArgsMissingScreen : RecordStart :=
  { screen := some 2, window := none, camera := none, mic := none,
    system_audio := false, path := none, fps := none }

/-- Arguments requesting the unknown window 9. -/
def sampleArgsMissingWindow : RecordStart :=
  { screen := none, window := some 9, camera := none, mic := none,
    system_audio := false, path := none, fps := none }

/-- Witness for C5 at concrete unresolvable ids. -/
theorem record_unresolved_target_fails_early_witness :
    sampleArgsMissingScreen.run sampleEnvNoMatch =
      (Except.error (screenNotFoundMsg 2), [CliEffect.listScreens]) ∧
    sampleArgsMissingWindow.run sampleEnvNoMatch =
      (Except.error (windowNotFoundMsg 9), [CliEffect.listWindows]) :=
  ⟨(record_unresolved_target_fails_early sampleArgsMissingScreen sampleEnvNoMatch).1 2
      rfl (by decide),
   (record_unresolved_target_fails_early sampleArgsMissingWindow sampleEnvNoMatch).2 9
      rfl rfl (by decide)⟩

/-- C9: a requested camera index matching no enumerated camera does not
fail the session — the run proceeds to spawn the recording actor with no
camera feed (`withCamera = false`, no `initCamera` effect) and, with the
actor spawning fine, succeeds — in contrast to the strict failure of C5
for an unresolved capture target. -/
theorem record_missing_camera_lenient (self : RecordStart) (env : CliEnv)
    (sid ci : Nat) (sc : ScreenInfo)
    (hscreen : self.screen = some sid)
    (hfound : env.screens.find? (fun s => s.id == sid) = some sc)
    (hcam : self.camera = some ci)
    (hmiss : ∀ c ∈ env.cameras, c.index ≠ ci)
    (hspawn : env.spawnResult = none) :
    self.run env =
      (Except.ok (),
       [CliEffect.listScreens, CliEffect.queryCameras,
        CliEffect.spawnActor env.freshId (defaultedPath self env)
          (ScreenCaptureTarget.screen sc.id) false self.system_audio,
        CliEffect.readLine, CliEffect.stopActor]) := by
  have hcf : env.cameras.find? (fun c => c.index == ci) = none := by
    refine List.find?_eq_none.mpr fun c hcin => ?_
    simpa using hmiss c hcin
  simp [RecordStart.run, hscreen, hfound, RecordStart.runResolved, hcam, hcf, hspawn]

/-- An environment with screen 1 and a single camera at index 0. -/
def sampleEnvCam : CliEnv :=
  { screens := [{ id := 1 }], windows := [],
    cameras := [{ index := 0, human_name := "cam" }],
    currentDir := ["home"], freshId := "sid", spawnResult := none }

/-- Arguments hitting screen 1 but asking for the unknown camera 5. -/
def sampleArgsCamMissing : RecordStart :=
  { screen := some 1, window := none, camera := some 5, mic := none,
    system_audio := true, path := none, fps := none }

/-- Witness for C9 at a concrete missing camera index. -/
theorem record_missing_camera_lenient_witness :
    sampleArgsCamMissing.run sampleEnvCam =
      (Except.ok (),
       [CliEffect.listScreens, CliEffect.queryCameras,
        CliEffect.spawnActor "sid" (defaultedPath sampleArgsCamMissing sampleEnvCam)
          (ScreenCaptureTarget.screen 1) false true,
        CliEffect.readLine, CliEffect.stopActor]) :=
  record_missing_camera_lenient sampleArgsCamMissing sampleEnvCam 1 5 { id := 1 }
    rfl rfl rfl (by decide) rfl

/-- Frame-consumption actions are never Ready Signal sends. -/
theorem filter_isReadyAction_map_consumed {F : Type} (fs : List F) :
    (fs.map TaskAction.consumed).filter isReadyAction = [] := by
  induction fs with
  | nil => rfl
  | cons f t ih => simp [isReadyAction, ih]

/-- A sample open sink with no audio encoder registered. -/
def sampleNoAudioSink : MP4File Nat Nat :=
  { tag := "t", output := { events := [OutputEvent.header], trailerResult := none },
    video := 0, audio := none, is_finished := false }

/-- C7: each of the four `PipelineSinkTask::run` implementations sends
exactly one Ready Signal — carrying success, as the very first action,
before any frame is consumed — and never sends a second value (the
video-owned task, whose audio assertion may panic first, does so in every
completing execution). -/
theorem sink_run_sends_ready_exactly_once
    (vi : EncoderImpl V FFVideo) (ai : EncoderImpl A FFAudio)
    (s1 s2 s3 s4 : MP4File V A) (fr1 : List MP4Input) (fr2 : List FFVideo)
    (fr3 : List FFAudio) (fr4 : List FFVideo) :
    (readyCount (runSinkMP4Input vi ai s1 fr1).2 = 1 ∧
     (runSinkMP4Input vi ai s1 fr1).2.head? =
       some (TaskAction.sendReady (Except.ok ()))) ∧
    (∀ r, runSinkVideoOwned vi s2 fr2 = some r →
      readyCount r.2 = 1 ∧
      r.2.head? = some (TaskAction.sendReady (Except.ok ()))) ∧
    (readyCount (runSinkAudioShared ai s3 fr3).2 = 1 ∧
     (runSinkAudioShared ai s3 fr3).2.head? =
       some (TaskAction.sendReady (Except.ok ()))) ∧
    (readyCount (runSinkVideoShared vi s4 fr4).2 = 1 ∧
     (runSinkVideoShared vi s4 fr4).2.head? =
       some (TaskAction.sendReady (Except.ok ()))) := by
  refine ⟨⟨?_, rfl⟩, ?_, ⟨?_, rfl⟩, ⟨?_, rfl⟩⟩
  · simp [runSinkMP4Input, readyCount, isReadyAction, filter_isReadyAction_map_consumed]
  · intro r hr
    rcases ha : s2.audio with _ | a
    · simp only [runSinkVideoOwned, ha, Option.some.injEq] at hr
      subst hr
      exact ⟨by simp [readyCount, isReadyAction, filter_isReadyAction_map_consumed], rfl⟩
    · simp [runSinkVideoOwned, ha] at hr
  · simp [runSinkAudioShared, readyCount, isReadyAction, filter_isReadyAction_map_consumed]
  · simp [runSinkVideoShared, readyCount, isReadyAction, filter_isReadyAction_map_consumed]

/-- The result of the video-owned task on the sample no-audio sink. -/
def sampleOwnedRunResult : MP4File Nat Nat × List (TaskAction FFVideo) :=
  ([{ pts := 1 }].foldl (fun st f => st.queue_video_frame sampleVideoImpl f)
     sampleNoAudioSink,
   TaskAction.sendReady (Except.ok ()) :: [{ pts := 1 }].map TaskAction.consumed)

/-- Witness for C7 at concrete sinks and channels. -/
theorem sink_run_sends_ready_exactly_once_witness :
    (readyCount (runSinkMP4Input sampleVideoImpl sampleAudioImpl sampleOpenSink
        [{ video := { pts := 1 }, audio := some { pts := 2 } }]).2 = 1 ∧
     (runSinkMP4Input sampleVideoImpl sampleAudioImpl sampleOpenSink
        [{ video := { pts := 1 }, audio := some { pts := 2 } }]).2.head? =
       some (TaskAction.sendReady (Except.ok ()))) ∧
    (readyCount sampleOwnedRunResult.2 = 1 ∧
     sampleOwnedRunResult.2.head? = some (TaskAction.sendReady (Except.ok ()))) ∧
    (readyCount (runSinkAudioShared sampleAudioImpl sampleOpenSink
        [{ pts := 3 }]).2 = 1 ∧
     (runSinkAudioShared sampleAudioImpl sampleOpenSink [{ pts := 3 }]).2.head? =
       some (TaskAction.sendReady (Except.ok ()))) ∧
    (readyCount (runSinkVideoShared sampleVideoImpl sampleOpenSink
        [{ pts := 4 }]).2 = 1 ∧
     (runSinkVideoShared sampleVideoImpl sampleOpenSink [{ pts := 4 }]).2.head? =
       some (TaskAction.sendReady (Except.ok ()))) :=
  ⟨(sink_run_sends_ready_exactly_once sampleVideoImpl sampleAudioImpl sampleOpenSink
      sampleNoAudioSink sampleOpenSink sampleOpenSink
      [{ video := { pts := 1 }, audio := some { pts := 2 } }] [{ pts := 1 }]
      [{ pts := 3 }] [{ pts := 4 }]).1,
   (sink_run_sends_ready_exactly_once sampleVideoImpl sampleAudioImpl sampleOpenSink
      sampleNoAudioSink sampleOpenSink sampleOpenSink
      [{ video := { pts := 1 }, audio := some { pts := 2 } }] [{ pts := 1 }]
      [{ pts := 3 }] [{ pts := 4 }]).2.1 sampleOwnedRunResult rfl,
   (sink_run_sends_ready_exactly_once sampleVideoImpl sampleAudioImpl sampleOpenSink
      sampleNoAudioSink sampleOpenSink sampleOpenSink
      [{ video := { pts := 1 }, audio := some { pts := 2 } }] [{ pts := 1 }]
      [{ pts := 3 }] [{ pts := 4 }]).2.2.1,
   (sink_run_sends_ready_exactly_once sampleVideoImpl sampleAudioImpl sampleOpenSink
      sampleNoAudioSink sampleOpenSink sampleOpenSink
      [{ video := { pts := 1 }, audio := some { pts := 2 } }] [{ pts := 1 }]
      [{ pts := 3 }] [{ pts := 4 }]).2.2.2⟩

/-- C10: the video-only task for a directly owned `MP4File` first asserts
that no audio encoder is registered. With `audio = none` the assertion
never fires: the run completes, sending the Ready Signal and consuming
every frame. With an audio encoder present the assertion panics
(modelled `none`): nothing is consumed. -/
theorem video_owned_run_audio_assertion (vi : EncoderImpl V FFVideo)
    (s : MP4File V A) (frames : List FFVideo) :
    (s.audio = none →
      runSinkVideoOwned vi s frames =
        some (frames.foldl (fun st f => st.queue_video_frame vi f) s,
              TaskAction.sendReady (Except.ok ()) :: frames.map TaskAction.consumed)) ∧
    (∀ a, s.audio = some a → runSinkVideoOwned vi s frames = none) := by
  constructor
  · intro h
    simp [runSinkVideoOwned, h]
  · intro a h
    simp [runSinkVideoOwned, h]

/-- Witness for C10: a no-audio sink completes, an audio-carrying sink
panics. -/
theorem video_owned_run_audio_assertion_witness :
    sampleNoAudioSink.audio = none ∧
    runSinkVideoOwned sampleVideoImpl sampleNoAudioSink [{ pts := 3 }] =
      some ([{ pts := 3 }].foldl
              (fun st f => st.queue_video_frame sampleVideoImpl f) sampleNoAudioSink,
            TaskAction.sendReady (Except.ok ()) ::
              [{ pts := 3 }].map TaskAction.consumed) ∧
    sampleOpenSink.audio = some 0 ∧
    runSinkVideoOwned sampleVideoImpl sampleOpenSink [{ pts := 3 }] = none :=
  ⟨rfl,
   (video_owned_run_audio_assertion sampleVideoImpl sampleNoAudioSink [{ pts := 3 }]).1 rfl,
   rfl,
   (video_owned_run_audio_assertion sampleVideoImpl sampleOpenSink [{ pts := 3 }]).2 0 rfl⟩

/-- The lock-ownership invariant holds initially. -/
theorem muxInv_init (s : MuxState V A) (h : MuxInit s) : MuxInv s := by
  obtain ⟨h1, h2, h3⟩ := h
  constructor <;> simp [h1, h2, h3]

/-- Every scheduler step preserves the lock-ownership invariant. -/
theorem muxInv_step (vi : EncoderImpl V FFVideo) (ai : EncoderImpl A FFAudio)
    {s t : MuxState V A} (hst : MuxStep vi ai s t) (hinv : MuxInv s) : MuxInv t := by
  obtain ⟨hv, ha⟩ := hinv
  cases hst with
  | lockV hhold hlock =>
    rw [hhold] at ha
    simp only [reduceCtorEq, iff_false, Bool.not_eq_true] at ha
    exact ⟨by simp, by simp [MuxInv, ha]⟩
  | queueUnlockV f rest hpend hhold hlock =>
    rw [hhold] at ha
    simp only [Option.some.injEq, reduceCtorEq, iff_false, Bool.not_eq_true] at ha
    exact ⟨by simp, by simp [MuxInv, ha]⟩
  | finishUnlockV hpend hhold hlock =>
    rw [hhold] at ha
    simp only [Option.some.injEq, reduceCtorEq, iff_false, Bool.not_eq_true] at ha
    exact ⟨by simp, by simp [MuxInv, ha]⟩
  | lockA hhold hlock =>
    rw [hhold] at hv
    simp only [reduceCtorEq, iff_false, Bool.not_eq_true] at hv
    exact ⟨by simp [MuxInv, hv], by simp⟩
  | queueUnlockA f rest hpend hhold hlock =>
    rw [hhold] at hv
    simp only [Option.some.injEq, reduceCtorEq, iff_false, Bool.not_eq_true] at hv
    exact ⟨by simp [MuxInv, hv], by simp⟩
  | finishUnlockA hpend hhold hlock =>
    rw [hhold] at hv
    simp only [Option.some.injEq, reduceCtorEq, iff_false, Bool.not_eq_true] at hv
    exact ⟨by simp [MuxInv, hv], by simp⟩

/-- The lock-ownership invariant holds in every reachable state. -/
theorem muxInv_reachable (vi : EncoderImpl V FFVideo) (ai : EncoderImpl A FFAudio)
    {s t : MuxState V A} (h0 : MuxInit s) (hr : MuxReachable vi ai s t) : MuxInv t := by
  induction hr with
  | refl => exact muxInv_init _ h0
  | tail t u hr2 hst2 ih => exact muxInv_step vi ai hst2 ih

/-- C4: from any properly initialized interleaving (mutex free, neither
task inside a call), in every reachable state the video task and the
audio task are never simultaneously inside a mutating sink call; and no
scheduler step mutates the shared sink unless the stepping task holds the
mutex — encoder calls are never interleaved. -/
theorem mux_mutating_calls_mutually_exclusive (vi : EncoderImpl V FFVideo)
    (ai : EncoderImpl A FFAudio) (s0 s : MuxState V A)
    (h0 : MuxInit s0) (hr : MuxReachable vi ai s0 s) :
    ¬(s.lockedV = true ∧ s.lockedA = true) ∧
    (∀ t u : MuxState V A, MuxStep vi ai t u → t.holder = none → u.sink = t.sink) := by
  constructor
  · rintro ⟨hlv, hla⟩
    obtain ⟨iv, ia⟩ := muxInv_reachable vi ai h0 hr
    have h1 := iv.mp hlv
    have h2 := ia.mp hla
    rw [h1] at h2
    simp at h2
  · intro t u hst hnone
    cases hst with
    | lockV hhold hlock => rfl
    | queueUnlockV f rest hpend hhold hlock => rw [hnone] at hhold; cases hhold
    | finishUnlockV hpend hhold hlock => rw [hnone] at hhold; cases hhold
    | lockA hhold hlock => rfl
    | queueUnlockA f rest hpend hhold hlock => rw [hnone] at hhold; cases hhold
    | finishUnlockA hpend hhold hlock => rw [hnone] at hhold; cases hhold

/-- A concrete properly initialized interleaving state. -/
def sampleMuxInit : MuxState Nat Nat :=
  { holder := none, lockedV := false, lockedA := false, sink := sampleOpenSink,
    pendingV := [{ pts := 1 }], pendingA := [{ pts := 2 }] }

/-- Witness for C4 at the concrete initial state. -/
theorem mux_mutating_calls_mutually_exclusive_witness :
    MuxInit sampleMuxInit ∧
    ¬(sampleMuxInit.lockedV = true ∧ sampleMuxInit.lockedA = true) :=
  ⟨⟨rfl, rfl, rfl⟩,
   (mux_mutating_calls_mutually_exclusive sampleVideoImpl sampleAudioImpl
      sampleMuxInit sampleMuxInit ⟨rfl, rfl, rfl⟩
      (MuxReachable.refl sampleMuxInit)).1⟩
